/-
Verification of samsungctl's websocket remote-control session
(src/samsungctl/remote_websocket.py) against its natural-language
specification.  Each Python routine relevant to the checked claims is
shallowly embedded as an executable Lean definition; theorems settle the
claims against those definitions.
-/
import Mathlib

set_option maxRecDepth 4000

/-! ### Callback registry and dispatch

Embeds `RemoteWebsocket.register_receive_callback`,
`RemoteWebsocket.unregister_receive_callback` and
`RemoteWebsocket.on_message` (remote_websocket.py lines 377-391).
A registered entry is the Python list `[callback, key, data]`: the handler
is identified by an opaque id, `key` is the message field name to test and
`data` is the expected value (`none` embeds Python `None`, the wildcard).
An inbound decoded message is its top-level field/value map, embedded as an
association list. -/

structure CbEntry where
  cb : Nat
  key : String
  data : Option String
  deriving DecidableEq

/-- Lookup of a top-level field of a decoded inbound message: embeds the
Python pair `key in response` / `response[key]` on the decoded dict. -/
def jsonGet : List (String × String) → String → Option String
  | [], _ => none
  | (k, v) :: rest, key => if k = key then some v else jsonGet rest key

/-- Predicate of `on_message` line 389:
`key in response and (data is None or response[key] == data)`. -/
def entryMatches (resp : List (String × String)) (e : CbEntry) : Bool :=
  match jsonGet resp e.key with
  | none => false
  | some v =>
    match e.data with
    | none => true
    | some d => v == d

/-- Python `list.remove`: delete the first occurrence of `e` (on a list
that contains `e`; on a list without `e` the embedding returns it
unchanged where Python would raise `ValueError`, a case that never arises
in the dispatch loop below). -/
def pyRemove (e : CbEntry) : List CbEntry → List CbEntry
  | [] => []
  | x :: xs => if x = e then xs else x :: pyRemove e xs

/-- The body of `RemoteWebsocket.on_message` lines 388-391: iterate over a
snapshot (`self._registered_callbacks[:]`) of the registry; every entry
whose predicate matches has its handler invoked and is then removed from
the live registry.  First component: the entries fired, in order; second:
the registry after dispatch. -/
def onMessageGo (resp : List (String × String)) :
    List CbEntry → List CbEntry → List CbEntry × List CbEntry
  | [], reg => ([], reg)
  | e :: snap, reg =>
    if entryMatches resp e then
      let r := onMessageGo resp snap (pyRemove e reg)
      (e :: r.1, r.2)
    else onMessageGo resp snap reg

/-- `RemoteWebsocket.on_message`: dispatch one decoded message against the
current registry (the snapshot is the registry itself). -/
def onMessage (resp : List (String × String)) (reg : List CbEntry) :
    List CbEntry × List CbEntry :=
  onMessageGo resp reg reg

/-- `RemoteWebsocket.register_receive_callback` line 378: append. -/
def registerCb (e : CbEntry) (reg : List CbEntry) : List CbEntry :=
  reg ++ [e]

/-- `RemoteWebsocket.unregister_receive_callback` lines 380-382. -/
def unregisterCb (e : CbEntry) (reg : List CbEntry) : List CbEntry :=
  if e ∈ reg then pyRemove e reg else reg

/-- Dispatch a whole sequence of inbound messages in order, accumulating
every fired registration (models successive `on_message` calls made by
`RemoteWebsocket.loop`). -/
def processAll : List (List (String × String)) → List CbEntry →
    List CbEntry × List CbEntry
  | [], reg => ([], reg)
  | m :: ms, reg =>
    let r := onMessage m reg
    let rest := processAll ms r.2
    (r.1 ++ rest.1, rest.2)

/-- Occurrence count of a registration in a registry. -/
def cnt (e : CbEntry) : List CbEntry → Nat
  | [] => 0
  | x :: xs => (if x = e then 1 else 0) + cnt e xs

theorem onMessageGo_fst (resp : List (String × String)) :
    ∀ (snap reg : List CbEntry),
      (onMessageGo resp snap reg).1 = snap.filter (entryMatches resp) := by
  intro snap
  induction snap with
  | nil => intro reg; rfl
  | cons e rest ih =>
    intro reg
    by_cases h : entryMatches resp e = true
    · simp [onMessageGo, h, List.filter, ih]
    · simp only [Bool.not_eq_true] at h
      simp [onMessageGo, h, List.filter, ih]

theorem onMessageGo_snd (resp : List (String × String)) :
    ∀ (snap reg : List CbEntry),
      (onMessageGo resp snap reg).2 =
        List.foldl (fun r e => pyRemove e r) reg
          (snap.filter (entryMatches resp)) := by
  intro snap
  induction snap with
  | nil => intro reg; rfl
  | cons e rest ih =>
    intro reg
    by_cases h : entryMatches resp e = true
    · simp [onMessageGo, h, List.filter, ih]
    · simp only [Bool.not_eq_true] at h
      simp [onMessageGo, h, List.filter, ih]

theorem foldl_pyRemove_skip (p : CbEntry → Bool) (x : CbEntry)
    (hx : p x = false) :
    ∀ (l : List CbEntry) (cur : List CbEntry), (∀ e ∈ l, p e = true) →
      List.foldl (fun r e => pyRemove e r) (x :: cur) l =
        x :: List.foldl (fun r e => pyRemove e r) cur l := by
  intro l
  induction l with
  | nil => intro cur _; rfl
  | cons e rest ih =>
    intro cur hall
    have he : p e = true := hall e (List.mem_cons_self e rest)
    have hne : x ≠ e := by
      intro hEq; rw [hEq, he] at hx; exact absurd hx (by decide)
    have hstep : pyRemove e (x :: cur) = x :: pyRemove e cur := by
      simp [pyRemove, hne]
    have hrest : ∀ a ∈ rest, p a = true := by
      intro a ha; exact hall a (List.mem_cons_of_mem e ha)
    simp only [List.foldl_cons, hstep]
    exact ih (pyRemove e cur) hrest

theorem foldl_pyRemove_filter (p : CbEntry → Bool) :
    ∀ (reg : List CbEntry),
      List.foldl (fun r e => pyRemove e r) reg (reg.filter p) =
        reg.filter (fun e => !p e) := by
  intro reg
  induction reg with
  | nil => rfl
  | cons x xs ih =>
    by_cases h : p x = true
    · have hrm : pyRemove x (x :: xs) = xs := by simp [pyRemove]
      simp [List.filter, h, hrm, ih]
    · simp only [Bool.not_eq_true] at h
      have hall : ∀ e ∈ xs.filter p, p e = true := by
        intro e he; exact (List.mem_filter.mp he).2
      simp only [List.filter, h]
      rw [foldl_pyRemove_skip p x h (xs.filter p) xs hall, ih]
      simp

theorem onMessage_spec (resp : List (String × String)) (reg : List CbEntry) :
    onMessage resp reg =
      (reg.filter (entryMatches resp),
       reg.filter (fun e => !entryMatches resp e)) := by
  unfold onMessage
  refine Prod.ext ?_ ?_
  · simpa using onMessageGo_fst resp reg reg
  · simpa [onMessageGo_snd resp reg reg] using foldl_pyRemove_filter (entryMatches resp) reg

theorem cnt_append (e : CbEntry) :
    ∀ (a b : List CbEntry), cnt e (a ++ b) = cnt e a + cnt e b := by
  intro a b
  induction a with
  | nil => simp [cnt]
  | cons x xs ih => simp [cnt, ih]; omega

theorem cnt_filter_add (p : CbEntry → Bool) (e : CbEntry) :
    ∀ (l : List CbEntry),
      cnt e (l.filter p) + cnt e (l.filter fun x => !p x) = cnt e l := by
  intro l
  induction l with
  | nil => rfl
  | cons x xs ih =>
    by_cases h : p x = true
    · simp only [List.filter, h, Bool.not_true, cnt]
      simp only [cnt] at ih ⊢
      omega
    · simp only [Bool.not_eq_true] at h
      simp only [List.filter, h, Bool.not_false, cnt]
      simp only [cnt] at ih ⊢
      omega

/-- Conservation per dispatched message: each registration either fires
(and leaves the registry) or stays registered. -/
theorem onMessage_cnt (resp : List (String × String)) (reg : List CbEntry)
    (e : CbEntry) :
    cnt e (onMessage resp reg).1 + cnt e (onMessage resp reg).2 =
      cnt e reg := by
  rw [onMessage_spec]
  exact cnt_filter_add (entryMatches resp) e reg

/-- C8: For every PendingCallback registration, its handler is invoked at
most once across all dispatched inbound messages, and the registration is
removed from the registry immediately after its handler fires: over any
message sequence, the number of times a registration fires plus the number
of its copies still registered equals its initial multiplicity, so a
registration occurring once fires at most once and is gone afterwards. -/
theorem c8_handler_at_most_once (msgs : List (List (String × String)))
    (reg : List CbEntry) (e : CbEntry) :
    cnt e (processAll msgs reg).1 + cnt e (processAll msgs reg).2 =
      cnt e reg ∧
    cnt e (processAll msgs reg).1 ≤ cnt e reg := by
  suffices h : ∀ (r : List CbEntry),
      cnt e (processAll msgs r).1 + cnt e (processAll msgs r).2 = cnt e r by
    refine ⟨h reg, ?_⟩
    have := h reg
    omega
  induction msgs with
  | nil => intro r; simp [processAll, cnt]
  | cons m ms ih =>
    intro r
    have hmsg := onMessage_cnt m r e
    have hrest := ih (onMessage m r).2
    simp only [processAll, cnt_append]
    omega

/-- C2 (amended): dispatch invokes the handler of every registered entry
whose predicate matches, in registration order, and removes each fired
entry; a message matching no entry invokes no handler and leaves the
registry unchanged. -/
theorem c2_dispatch_fires_every_match (resp : List (String × String))
    (reg : List CbEntry) :
    (onMessage resp reg).1 = reg.filter (entryMatches resp) ∧
    (onMessage resp reg).2 = reg.filter (fun e => !entryMatches resp e) ∧
    ((∀ e ∈ reg, entryMatches resp e = false) →
      onMessage resp reg = ([], reg)) := by
  rw [onMessage_spec]
  refine ⟨rfl, rfl, ?_⟩
  intro hall
  have h1 : reg.filter (entryMatches resp) = [] := by
    rw [List.filter_eq_nil_iff]
    intro a ha
    simp [hall a ha]
  have h2 : reg.filter (fun e => !entryMatches resp e) = reg := by
    rw [List.filter_eq_self]
    intro a ha
    simp [hall a ha]
  rw [h1, h2]

/-- Witness for C2's amended theorem at a concrete unmatched message. -/
theorem c2_dispatch_fires_every_match_witness :
    onMessage [("event", "x")] [⟨1, "event", some "y"⟩] =
      ([], [⟨1, "event", some "y"⟩]) :=
  (c2_dispatch_fires_every_match [("event", "x")]
    [⟨1, "event", some "y"⟩]).2.2 (by decide)

/-- Counterexample to C2 as stated: with two registered entries both
matching the inbound message, `on_message` fires both handlers, not at
most one. -/
theorem c2_first_match_only_counterexample :
    ¬ ((onMessage [("event", "x")]
        [⟨1, "event", some "x"⟩, ⟨2, "event", some "x"⟩]).1.length ≤ 1) := by
  decide

/-! ### Pointer batch (`class Mouse`, remote_websocket.py lines 472-595)

The batch state is `_is_running` plus the queued `_commands` list, whose
entries are either numbers (waits) or serialized JSON payload strings. -/

inductive MCmd
  | waitFor (t : Nat)
  | payload (s : String)
  deriving DecidableEq

structure MouseState where
  isRunning : Bool
  commands : List MCmd
  deriving DecidableEq

inductive PyErr
  | attributeError
  | connectionClosed
  deriving DecidableEq

/-- The attribute `connection` looked up by `Mouse._send` line 494
(`if not self._remote.connection`).  `RemoteWebsocket` defines no
attribute, property or method named `connection` anywhere in
remote_websocket.py (the live socket is `self.sock`), so the lookup on
the remote object finds nothing: `none` embeds the missing attribute,
`some b` would embed an attribute of truthiness `b`. -/
def remoteConnectionAttr : Option Bool := none

/-- Serialization built by `Mouse._send` lines 498-507:
`json.dumps` of method `ms.remote.control` with params `Cmd`,
`TypeOfRemote` (= `ProcessMouseDevice`) and any extra keyword params. -/
def mousePayload (cmd : String) (extra : String) : String :=
  "\x7b\"method\": \"ms.remote.control\", \"params\": \x7b\"Cmd\": \"" ++ cmd ++
    "\", \"TypeOfRemote\": \"ProcessMouseDevice\"" ++ extra ++ "\x7d\x7d"

/-- `Mouse._send` lines 491-509: evaluate `self._remote.connection`
(raising `AttributeError` when the attribute is missing, or
`exceptions.ConnectionClosed` when it is present and falsy), then append
the serialized payload to `_commands` only when no run is in progress. -/
def Mouse.sendCmd (s : MouseState) (payload : String) : MouseState × Option PyErr :=
  match remoteConnectionAttr with
  | none => (s, some PyErr.attributeError)
  | some conn =>
    if conn = false then (s, some PyErr.connectionClosed)
    else if s.isRunning = false then
      ({ s with commands := s.commands ++ [MCmd.payload payload] }, none)
    else (s, none)

/-- `Mouse.left_click` line 511. -/
def Mouse.leftClick (s : MouseState) : MouseState × Option PyErr :=
  Mouse.sendCmd s (mousePayload "LeftClick" "")

/-- `Mouse.right_click` line 514. -/
def Mouse.rightClick (s : MouseState) : MouseState × Option PyErr :=
  Mouse.sendCmd s (mousePayload "RightClick" "")

/-- Position dict built by `Mouse.move` lines 518-522; `t` stands for
`str(time.time())`. -/
def positionJson (x y : Int) (t : String) : String :=
  "\x7b\"x\": " ++ toString x ++ ", \"y\": " ++ toString y ++
    ", \"Time\": \"" ++ t ++ "\"\x7d"

/-- `Mouse.move` lines 517-524. -/
def Mouse.moveCmd (x y : Int) (t : String) (s : MouseState) :
    MouseState × Option PyErr :=
  Mouse.sendCmd s (mousePayload "Move" (", \"Position\": " ++ positionJson x y t))

/-- `Mouse.clear` lines 487-489: `if not self.is_running: del self._commands[:]`. -/
def Mouse.clearCmds (s : MouseState) : MouseState :=
  if s.isRunning = false then { s with commands := [] } else s

/-- `Mouse.add_wait` lines 526-528: `if self._is_running: self._commands += [wait]`. -/
def Mouse.addWait (w : Nat) (s : MouseState) : MouseState :=
  if s.isRunning then { s with commands := s.commands ++ [MCmd.waitFor w] } else s

/-- Abstraction of when `Mouse.stop` fires: `stopAt = some j` means the
stop signal (`_send_event.set()`) arrives during the `j`-th numeric wait
executed by the run (0-based); once set it stays set, so the event is
observed set at the end of wait `k` exactly when `j ≤ k`. -/
def stopSignalSet (stopAt : Option Nat) (k : Nat) : Bool :=
  match stopAt with
  | none => false
  | some j => decide (j ≤ k)

/-- The command loop of `Mouse.run` lines 579-589: numeric entries wait
(`self._send_event.wait(payload)`, aborting the run when the stop signal
is observed set), other entries are written to the transport.  Returns
(payloads sent in order, wait bounds executed, aborted-early flag);
`k` counts the numeric waits already executed. -/
def runLoop (stopAt : Option Nat) : List MCmd → Nat → List String × List Nat × Bool
  | [], _ => ([], [], false)
  | MCmd.waitFor t :: rest, k =>
    if stopSignalSet stopAt k then ([], [t], true)
    else
      let r := runLoop stopAt rest (k + 1)
      (r.1, t :: r.2.1, r.2.2)
  | MCmd.payload p :: rest, k =>
    let r := runLoop stopAt rest k
    (p :: r.1, r.2.1, r.2.2)

/-- The three readiness events whose callbacks `Mouse.run` registers
(lines 561-577). -/
def readinessEvents : List String :=
  ["ms.remote.imeStart", "ms.remote.imeUpdate", "ms.remote.touchEnable"]

/-- Observable outcome of one `Mouse.run` call. -/
structure RunOut where
  sent : List String
  registeredEvents : List String
  waitBounds : List Nat
  tailWaitBounds : List Nat
  logs : List String
  abortedEarly : Bool
  deriving DecidableEq

/-- `Mouse.run` lines 537-595: no socket logs and returns; an already
running batch is a no-op; otherwise mark running, register the three
readiness callbacks, execute the queued commands in order (numeric
entries as bounded waits that abort the run early when the stop signal is
observed, others written to the transport), then wait on each of the three
readiness events with bound `len(self._commands)` and mark not running.
The `_commands` list itself is never mutated by `run`.  The three trailing
waits return after their bound whether or not the readiness events have
fired, so their bounds are recorded and no readiness oracle is needed. -/
def Mouse.runModel (sockLive : Bool) (stopAt : Option Nat) (s : MouseState) :
    MouseState × RunOut :=
  if sockLive = false then
    (s, ⟨[], [], [], [], ["Is the TV on??"], false⟩)
  else if s.isRunning then
    (s, ⟨[], [], [], [], [], false⟩)
  else
    let r := runLoop stopAt s.commands 0
    if r.2.2 then
      ({ s with isRunning := false }, ⟨r.1, readinessEvents, r.2.1, [], [], true⟩)
    else
      ({ s with isRunning := false },
        ⟨r.1, readinessEvents, r.2.1,
          [s.commands.length, s.commands.length, s.commands.length], [], false⟩)

/-- The pointer-command payloads of a queue, in order (the non-numeric
entries, which are the ones written to the transport). -/
def payloadsOf : List MCmd → List String
  | [] => []
  | MCmd.waitFor _ :: rest => payloadsOf rest
  | MCmd.payload p :: rest => p :: payloadsOf rest

theorem runLoop_natural (stopAt : Option Nat) :
    ∀ (cmds : List MCmd) (k : Nat), (runLoop stopAt cmds k).2.2 = false →
      (runLoop stopAt cmds k).1 = payloadsOf cmds := by
  intro cmds
  induction cmds with
  | nil => intro k _; rfl
  | cons c rest ih =>
    intro k
    cases c with
    | waitFor t =>
      by_cases hstop : stopSignalSet stopAt k = true
      · simp [runLoop, hstop]
      · simp only [Bool.not_eq_true] at hstop
        simp only [runLoop, hstop, Bool.false_eq_true, if_false]
        intro h
        simpa [payloadsOf] using ih (k + 1) h
    | payload p =>
      simp only [runLoop]
      intro h
      simpa [payloadsOf] using ih k h

theorem runLoop_sent_order (stopAt : Option Nat) :
    ∀ (cmds : List MCmd) (k : Nat),
      ∃ t, payloadsOf cmds = (runLoop stopAt cmds k).1 ++ t := by
  intro cmds
  induction cmds with
  | nil => intro k; exact ⟨[], rfl⟩
  | cons c rest ih =>
    intro k
    cases c with
    | waitFor t =>
      by_cases hstop : stopSignalSet stopAt k = true
      · exact ⟨payloadsOf rest, by simp [runLoop, hstop, payloadsOf]⟩
      · simp only [Bool.not_eq_true] at hstop
        obtain ⟨tl, htl⟩ := ih (k + 1)
        exact ⟨tl, by simp [runLoop, hstop, payloadsOf, htl]⟩
    | payload p =>
      obtain ⟨tl, htl⟩ := ih k
      exact ⟨tl, by simp [runLoop, payloadsOf, htl]⟩

/-- C4 (amended): a run with a live session executes the queued
operations strictly in insertion order — on natural completion exactly
the queued pointer commands are written, in order, and on an early abort
the commands written form a prefix of them in order — and the running
flag is reset to not-running on both exits; the queued commands are
retained (the queue is left unchanged), not cleared. -/
theorem c4_run_order_flag_reset (s : MouseState) (stopAt : Option Nat)
    (hrun : s.isRunning = false) (hne : s.commands ≠ []) :
    (Mouse.runModel true stopAt s).1.isRunning = false ∧
    (Mouse.runModel true stopAt s).1.commands = s.commands ∧
    ((Mouse.runModel true stopAt s).2.abortedEarly = false →
      (Mouse.runModel true stopAt s).2.sent = payloadsOf s.commands) ∧
    (∃ t, payloadsOf s.commands = (Mouse.runModel true stopAt s).2.sent ++ t) := by
  have hne2 : s.commands = s.commands := rfl
  by_cases habort : (runLoop stopAt s.commands 0).2.2 = true
  · constructor
    · simp [Mouse.runModel, hrun, habort]
    constructor
    · simp [Mouse.runModel, hrun, habort]
    constructor
    · intro hcontra
      simp [Mouse.runModel, hrun, habort] at hcontra
    · obtain ⟨t, ht⟩ := runLoop_sent_order stopAt s.commands 0
      exact ⟨t, by simpa [Mouse.runModel, hrun, habort] using ht⟩
  · simp only [Bool.not_eq_true] at habort
    have hsent := runLoop_natural stopAt s.commands 0 habort
    constructor
    · simp [Mouse.runModel, hrun, habort]
    constructor
    · simp [Mouse.runModel, hrun, habort]
    constructor
    · intro _
      simpa [Mouse.runModel, hrun, habort] using hsent
    · exact ⟨[], by simp [Mouse.runModel, hrun, habort, hsent]⟩

/-- Witness for C4's amended theorem at a concrete three-element queue. -/
theorem c4_run_order_flag_reset_witness :
    (Mouse.runModel true none ⟨false, [MCmd.payload "a", MCmd.waitFor 2,
        MCmd.payload "b"]⟩).1.isRunning = false ∧
    (Mouse.runModel true none ⟨false, [MCmd.payload "a", MCmd.waitFor 2,
        MCmd.payload "b"]⟩).1.commands =
      (⟨false, [MCmd.payload "a", MCmd.waitFor 2, MCmd.payload "b"]⟩ :
        MouseState).commands ∧
    ((Mouse.runModel true none ⟨false, [MCmd.payload "a", MCmd.waitFor 2,
        MCmd.payload "b"]⟩).2.abortedEarly = false →
      (Mouse.runModel true none ⟨false, [MCmd.payload "a", MCmd.waitFor 2,
        MCmd.payload "b"]⟩).2.sent =
        payloadsOf [MCmd.payload "a", MCmd.waitFor 2, MCmd.payload "b"]) ∧
    (∃ t, payloadsOf [MCmd.payload "a", MCmd.waitFor 2, MCmd.payload "b"] =
      (Mouse.runModel true none ⟨false, [MCmd.payload "a", MCmd.waitFor 2,
        MCmd.payload "b"]⟩).2.sent ++ t) :=
  c4_run_order_flag_reset
    ⟨false, [MCmd.payload "a", MCmd.waitFor 2, MCmd.payload "b"]⟩ none
    (by decide) (by decide)

/-- Counterexample to C4 as stated: a run that completes naturally does
not clear the queued commands — after running a one-payload queue the
queue still holds that payload. -/
theorem c4_queue_cleared_counterexample :
    ¬ ((Mouse.runModel true none ⟨false, [MCmd.payload "p"]⟩).1.commands = []) := by
  decide

/-- C5: the claim's two true parts evaluated together with its failing
input: while a run is active, `clear` leaves the queue unchanged and a
pointer-command append leaves the queue unchanged (though by raising
`AttributeError` on the missing `connection` attribute rather than
silently), but `add_wait` — whose guard is `if self._is_running:`, the
inversion of the guard used by `_send` and `clear` — appends to the queue
while a run is active and is the silently ignored no-op only when no run
is active, contradicting the claim. -/
theorem c5_add_wait_guard_inverted :
    (Mouse.addWait 5 ⟨true, []⟩).commands = [MCmd.waitFor 5] ∧
    Mouse.addWait 5 ⟨false, []⟩ = ⟨false, []⟩ ∧
    Mouse.clearCmds ⟨true, [MCmd.waitFor 1]⟩ = ⟨true, [MCmd.waitFor 1]⟩ ∧
    (Mouse.leftClick ⟨true, []⟩).1 = ⟨true, []⟩ ∧
    (Mouse.leftClick ⟨true, []⟩).2 = some PyErr.attributeError := by
  decide

/-- C10: running an empty queue with a live session registers the three
readiness callbacks, sends nothing, executes no command waits, waits with
bound 0 (the queue length) on each of the three readiness events — so the
run never depends on a readiness signal having fired — and returns with
the running flag false and the queue still empty. -/
theorem c10_empty_queue_run (stopAt : Option Nat) :
    Mouse.runModel true stopAt ⟨false, []⟩ =
      (⟨false, []⟩, ⟨[], readinessEvents, [], [0, 0, 0], [], false⟩) := by
  rfl

/-! ### Power-on (`RemoteWebsocket.power` setter, lines 70-104)

Embeds the `value and self.sock is None` branch: clear the power event;
if a wake-capable MAC address is known, loop
`while not self._power_event.isSet() and error_count < 6`, each iteration
sending one wake-on-LAN packet, waiting up to 10 time units on the power
event and attempting `self.open()` (a failed open raises `RuntimeError`,
caught, incrementing `error_count`); after the loop an error is logged
exactly when `error_count == 6`.  When no MAC address is known the branch
body is skipped entirely (the `if self.mac_address:` guard has no else
arm).

The power event can be set by two distinct paths, both of which end the
loop at its next condition check:
- a successful open: its auth callback runs `self._power_event.set()`
  (line 221), the session staying established; or
- a FAILED open that had already opened the socket (e.g. the 30-unit auth
  wait expiring): `open` closes the socket before raising, the receive
  loop's read then fails and its teardown runs `self._power_event.set()`
  (line 116) — so such a failure also ends the retry loop, with the
  session down and `error_count` incremented only for that one attempt.
Only a failure BEFORE the socket opens (`create_connection` raising,
line 171-173) leaves the power event clear and lets the loop continue.
`att k` gives the k-th open attempt's outcome. -/

inductive PowerOpenOutcome
  | established
  | failedNoSock
  | failedAfterSock
  deriving DecidableEq

structure PowerRes where
  wolCount : Nat
  openAttempts : Nat
  errorCount : Nat
  waitedBound : Nat
  logs : List String
  powerOn : Bool
  raised : Bool
  deriving DecidableEq

structure LoopRes where
  wol : Nat
  attempts : Nat
  errors : Nat
  eventSet : Bool
  established : Bool
  deriving DecidableEq

def powerOnFailMsg : String :=
  "Unable to power on the TV, check network connectivity"

/-- The wake/retry loop; `fuel = 6 - error_count` at loop entry, `i` the
index of the next open attempt.  An `established` attempt sets the power
event with the session up; a `failedAfterSock` attempt increments
`error_count` but also sets the power event (receive-loop teardown,
line 116), so the `while` condition ends the loop with the session down;
a `failedNoSock` attempt increments `error_count` and leaves the event
clear, continuing the loop. -/
def powerLoop (att : Nat → PowerOpenOutcome) : Nat → Nat → LoopRes
  | 0, _ => ⟨0, 0, 0, false, false⟩
  | Nat.succ fuel, i =>
    match att i with
    | PowerOpenOutcome.established => ⟨1, 1, 0, true, true⟩
    | PowerOpenOutcome.failedAfterSock => ⟨1, 1, 1, true, false⟩
    | PowerOpenOutcome.failedNoSock =>
      let r := powerLoop att fuel (i + 1)
      ⟨r.wol + 1, r.attempts + 1, r.errors + 1, r.eventSet, r.established⟩

/-- The power-on branch of the `power` setter (session down).  `powerOn`
is the derived power state after the call, `self.sock is not None`: true
exactly when an attempt established the session. -/
def powerOnModel (macKnown : Bool) (att : Nat → PowerOpenOutcome) : PowerRes :=
  if macKnown then
    let r := powerLoop att 6 0
    { wolCount := r.wol
      openAttempts := r.attempts
      errorCount := r.errors
      waitedBound := 10 * r.attempts
      logs := if r.errors = 6 then [powerOnFailMsg] else []
      powerOn := r.established
      raised := false }
  else
    { wolCount := 0, openAttempts := 0, errorCount := 0, waitedBound := 0,
      logs := [], powerOn := false, raised := false }

theorem powerLoop_wol_eq_attempts (att : Nat → PowerOpenOutcome) :
    ∀ (fuel i : Nat),
      (powerLoop att fuel i).wol = (powerLoop att fuel i).attempts := by
  intro fuel
  induction fuel with
  | zero => intro i; rfl
  | succ f ih =>
    intro i
    cases h : att i <;> simp [powerLoop, h, ih (i + 1)]

theorem powerLoop_wol_le_fuel (att : Nat → PowerOpenOutcome) :
    ∀ (fuel i : Nat), (powerLoop att fuel i).wol ≤ fuel := by
  intro fuel
  induction fuel with
  | zero => intro i; exact Nat.le_refl 0
  | succ f ih =>
    intro i
    cases h : att i
    · simp [powerLoop, h]
    · simp only [powerLoop, h]
      exact Nat.succ_le_succ (ih (i + 1))
    · simp [powerLoop, h]

theorem powerLoop_all_noSock (att : Nat → PowerOpenOutcome) :
    ∀ (fuel i : Nat),
      (∀ k, k < fuel → att (i + k) = PowerOpenOutcome.failedNoSock) →
      powerLoop att fuel i = ⟨fuel, fuel, fuel, false, false⟩ := by
  intro fuel
  induction fuel with
  | zero => intro i _; rfl
  | succ f ih =>
    intro i hall
    have h0 : att i = PowerOpenOutcome.failedNoSock := by
      simpa using hall 0 (Nat.succ_pos f)
    have hrest : ∀ k, k < f → att (i + 1 + k) = PowerOpenOutcome.failedNoSock := by
      intro k hk
      have := hall (k + 1) (Nat.succ_lt_succ hk)
      simpa [Nat.add_assoc, Nat.add_comm 1 k] using this
    simp [powerLoop, h0, ih (i + 1) hrest]

theorem powerLoop_first_established (att : Nat → PowerOpenOutcome) :
    ∀ (fuel i k : Nat), k < fuel →
      (∀ j, j < k → att (i + j) = PowerOpenOutcome.failedNoSock) →
      att (i + k) = PowerOpenOutcome.established →
      powerLoop att fuel i = ⟨k + 1, k + 1, k, true, true⟩ := by
  intro fuel
  induction fuel with
  | zero => intro i k hk; omega
  | succ f ih =>
    intro i k hk hfail hsucc
    cases k with
    | zero =>
      have : att i = PowerOpenOutcome.established := by simpa using hsucc
      simp [powerLoop, this]
    | succ k0 =>
      have h0 : att i = PowerOpenOutcome.failedNoSock := by
        simpa using hfail 0 (Nat.succ_pos k0)
      have hfail2 : ∀ j, j < k0 → att (i + 1 + j) = PowerOpenOutcome.failedNoSock := by
        intro j hj
        have := hfail (j + 1) (Nat.succ_lt_succ hj)
        simpa [Nat.add_assoc, Nat.add_comm 1 j] using this
      have hsucc2 : att (i + 1 + k0) = PowerOpenOutcome.established := by
        simpa [Nat.add_assoc, Nat.add_comm 1 k0] using hsucc
      have hk2 : k0 < f := Nat.lt_of_succ_lt_succ hk
      simp [powerLoop, h0, ih (i + 1) k0 hk2 hfail2 hsucc2]

theorem powerLoop_first_afterSock (att : Nat → PowerOpenOutcome) :
    ∀ (fuel i k : Nat), k < fuel →
      (∀ j, j < k → att (i + j) = PowerOpenOutcome.failedNoSock) →
      att (i + k) = PowerOpenOutcome.failedAfterSock →
      powerLoop att fuel i = ⟨k + 1, k + 1, k + 1, true, false⟩ := by
  intro fuel
  induction fuel with
  | zero => intro i k hk; omega
  | succ f ih =>
    intro i k hk hfail hstop
    cases k with
    | zero =>
      have : att i = PowerOpenOutcome.failedAfterSock := by simpa using hstop
      simp [powerLoop, this]
    | succ k0 =>
      have h0 : att i = PowerOpenOutcome.failedNoSock := by
        simpa using hfail 0 (Nat.succ_pos k0)
      have hfail2 : ∀ j, j < k0 → att (i + 1 + j) = PowerOpenOutcome.failedNoSock := by
        intro j hj
        have := hfail (j + 1) (Nat.succ_lt_succ hj)
        simpa [Nat.add_assoc, Nat.add_comm 1 j] using this
      have hstop2 : att (i + 1 + k0) = PowerOpenOutcome.failedAfterSock := by
        simpa [Nat.add_assoc, Nat.add_comm 1 k0] using hstop
      have hk2 : k0 < f := Nat.lt_of_succ_lt_succ hk
      simp [powerLoop, h0, ih (i + 1) k0 hk2 hfail2 hstop2]

/-- C6 (amended): with the session down and a wake-capable address known,
power-on sends the wake signal and attempts an open in a loop of at most
6 iterations, stopping as soon as the power event is set — which happens
when an open establishes the session (attempt k establishing first means
exactly k+1 wake packets and power on), but also when a failed open had
already opened the socket, whose receive-loop teardown sets the event
(attempt k failing that way first means exactly k+1 wake packets, power
off and error count k+1); the exhaustion log is emitted exactly when the
error count reaches 6, which requires every attempt before the last to
have failed without opening a socket; no exception propagates to the
caller in any case. -/
theorem c6_power_on_retry_budget (att : Nat → PowerOpenOutcome) :
    (powerOnModel true att).raised = false ∧
    (powerOnModel true att).wolCount ≤ 6 ∧
    (powerOnModel true att).wolCount = (powerOnModel true att).openAttempts ∧
    (powerOnModel true att).logs =
      (if (powerOnModel true att).errorCount = 6 then [powerOnFailMsg] else []) ∧
    ((∀ k, k < 6 → att k = PowerOpenOutcome.failedNoSock) →
      (powerOnModel true att).wolCount = 6 ∧
      (powerOnModel true att).powerOn = false ∧
      (powerOnModel true att).logs = [powerOnFailMsg]) ∧
    (∀ k, k < 6 → (∀ j, j < k → att j = PowerOpenOutcome.failedNoSock) →
      att k = PowerOpenOutcome.established →
      (powerOnModel true att).wolCount = k + 1 ∧
      (powerOnModel true att).powerOn = true ∧
      (powerOnModel true att).logs = []) ∧
    (∀ k, k < 6 → (∀ j, j < k → att j = PowerOpenOutcome.failedNoSock) →
      att k = PowerOpenOutcome.failedAfterSock →
      (powerOnModel true att).wolCount = k + 1 ∧
      (powerOnModel true att).powerOn = false ∧
      (powerOnModel true att).errorCount = k + 1) := by
  refine ⟨rfl, ?_, ?_, ?_, ?_, ?_, ?_⟩
  · simpa [powerOnModel] using powerLoop_wol_le_fuel att 6 0
  · simpa [powerOnModel] using powerLoop_wol_eq_attempts att 6 0
  · simp [powerOnModel]
  · intro hall
    have h := powerLoop_all_noSock att 6 0 (by intro k hk; simpa using hall k hk)
    simp [powerOnModel, h]
  · intro k hk hfail hsucc
    have h := powerLoop_first_established att 6 0 k hk
      (by intro j hj; simpa using hfail j hj) (by simpa using hsucc)
    have hk6 : k ≠ 6 := by omega
    simp [powerOnModel, h, hk6]
  · intro k hk hfail hstop
    have h := powerLoop_first_afterSock att 6 0 k hk
      (by intro j hj; simpa using hfail j hj) (by simpa using hstop)
    simp [powerOnModel, h]

/-- Witness for C6 with every open attempt failing before a socket
opens: the budget is exhausted and the failure logged. -/
theorem c6_power_on_retry_budget_witness :
    (powerOnModel true (fun _ => PowerOpenOutcome.failedNoSock)).wolCount = 6 ∧
    (powerOnModel true (fun _ => PowerOpenOutcome.failedNoSock)).powerOn = false ∧
    (powerOnModel true (fun _ => PowerOpenOutcome.failedNoSock)).logs =
      [powerOnFailMsg] :=
  (c6_power_on_retry_budget (fun _ => PowerOpenOutcome.failedNoSock)).2.2.2.2.1
    (fun _ _ => rfl)

/-- Counterexample to C6 as stated: an open attempt that fails after its
socket had opened (e.g. the auth wait timing out) makes the receive-loop
teardown (line 116) set `_power_event`, so the retry loop stops after
that single failed attempt — one wake packet, no exhaustion log, power
off — although the session never became established; the claim's
"loop ... up to 6 times, stopping as soon as the session becomes
established; when the budget of 6 failed opens is exhausted the failure
is reported via logging" is false at this input. -/
theorem c6_post_socket_failure_counterexample :
    (powerOnModel true (fun _ => PowerOpenOutcome.failedAfterSock)).wolCount = 1 ∧
    (powerOnModel true (fun _ => PowerOpenOutcome.failedAfterSock)).logs = [] ∧
    (powerOnModel true (fun _ => PowerOpenOutcome.failedAfterSock)).powerOn = false ∧
    ¬ ((powerOnModel true (fun _ => PowerOpenOutcome.failedAfterSock)).wolCount = 6 ∧
       (powerOnModel true (fun _ => PowerOpenOutcome.failedAfterSock)).logs =
         [powerOnFailMsg]) := by
  refine ⟨rfl, rfl, rfl, ?_⟩
  intro h
  exact absurd h.1 (by decide)

/-- Counterexample to C7 as stated: with no wake-capable address known,
the power-on path emits no log at all (the `if self.mac_address:` guard
simply skips the branch body; there is no else arm), so the claimed
"the operation logs" is false — along with it the full claimed
conjunction fails at this input. -/
theorem c7_no_mac_logs_counterexample :
    ¬ ((powerOnModel false (fun _ => PowerOpenOutcome.failedNoSock)).logs ≠ [] ∧
       (powerOnModel false (fun _ => PowerOpenOutcome.failedNoSock)).wolCount = 0 ∧
       (powerOnModel false (fun _ => PowerOpenOutcome.failedNoSock)).openAttempts = 0 ∧
       (powerOnModel false (fun _ => PowerOpenOutcome.failedNoSock)).powerOn = false ∧
       (powerOnModel false (fun _ => PowerOpenOutcome.failedNoSock)).waitedBound = 0 ∧
       (powerOnModel false (fun _ => PowerOpenOutcome.failedNoSock)).raised = false) := by
  intro h
  exact h.1 rfl

/-- C7 (amended): a power-on request with no wake-capable address known
performs no wake attempt and no session open, leaves the power state off,
does not block (zero wait bound) and raises no exception — and emits no
log either. -/
theorem c7_power_on_no_mac_noop (att : Nat → PowerOpenOutcome) :
    powerOnModel false att =
      ⟨0, 0, 0, 0, [], false, false⟩ := by
  rfl

/-! ### Handshake (`RemoteWebsocket.open`, lines 123-243)

Embeds the transport/auth skeleton of `open` together with which thread
each effect happens on.  The caller's `open`: close any live socket
(lines 149-150), pick the transport variant — port 8002/TLS when a cached
token exists or the configured port is already 8002, else port 8001
plain (lines 152-168) — connect (line 171, `RuntimeError('Unable to
connect to the TV')` on failure), register the authorized/unauthorized
callbacks, start the receive loop and wait up to 30 time units on
`auth_event` (line 238); if the wait expires unset, `open` closes and
raises `RuntimeError('Auth Failure')` on the caller's own thread
(lines 239-241).

Both auth callbacks, however, run on the RECEIVE thread, invoked by
`on_message` from inside `loop`'s `try`/bare `except:` (lines 108-114).
`unauthorized_callback`'s first statement is `auth_event.set()`
(line 178): the caller of `open`, blocked at line 238, wakes with the
event set, sets `self._running = True` and returns normally — so an
unauthorized handshake returns SUCCESS to `open`'s caller.  What the
callback does next never reaches that caller:
- on port 8002 it closes the socket and raises
  `RuntimeError('Authentication denied')` (lines 193-194), which
  propagates only into `loop`'s bare `except:` and is swallowed there;
- on port 8001 it sets the configured port to 8002 and re-runs
  `self.open()` on the receive thread (lines 190-191).  That retried open
  closes the still-live socket — `close` (lines 253-255) sets
  `_loop_event` — reconnects to 8002 (a connect failure raising on the
  receive thread, swallowed by the same bare `except:`), registers fresh
  callbacks and starts a new receive thread (lines 235-236).  The new
  thread finds `_loop_event` still set (it is cleared only by a loop
  teardown, line 119, which has not run), so its loop body never
  executes: it tears down at once, clearing `self.sock` and ALL
  registered callbacks (lines 116-121).  No message is therefore ever
  dispatched for the retried open, its fresh `auth_event` can only time
  out — whatever the device would answer on 8002 — and after 30 time
  units the retried open raises `RuntimeError('Auth Failure')` on the
  receive thread, again swallowed.  Hence the device's auth outcome on
  the retry connection is irrelevant and is not consulted.

The trace records, in order, the effects of both threads; an error
raised on the receive thread and caught by `loop`'s bare `except:`
appears as a `swallowed` event.  The second component is what `open`'s
CALLER observes: `Except.ok` when `open` returns, `Except.error` for an
exception raised on the caller's thread.  `connectOk p` tells whether
connecting to port `p` succeeds and `outcome p` which auth event (if
any) the device sends within the bound on a connection to port `p`. -/

inductive AuthOutcome
  | authorized
  | unauthorized
  | timedOut
  deriving DecidableEq

inductive OpenErr
  | connectFail
  | authDenied
  | authTimeout
  deriving DecidableEq

inductive OpenEv
  | closedSock
  | connected (port : Nat)
  | authWait (bound : Nat)
  | swallowed (e : OpenErr)
  deriving DecidableEq

/-- The recursive `self.open()` run by `unauthorized_callback` on the
receive thread after the security downgrade (lines 190-191): close the
live socket, reconnect to 8002; the retried handshake's receive thread
dies instantly (`_loop_event` still set), so its auth wait can only
expire, every failure being swallowed by the outer `loop`'s bare
`except:` (see the section comment). -/
def openRetry8002 (connectOk : Nat → Bool) : List OpenEv :=
  if connectOk 8002 = false then
    [OpenEv.closedSock, OpenEv.swallowed OpenErr.connectFail]
  else
    [OpenEv.closedSock, OpenEv.connected 8002, OpenEv.authWait 30,
     OpenEv.swallowed OpenErr.authTimeout]

/-- Variant selection of `open` lines 152-168:
`if token or self.config['port'] == 8002` picks the TLS port. -/
def effectivePort (hasToken : Bool) (cfgPort : Nat) : Nat :=
  if hasToken || cfgPort == 8002 then 8002 else 8001

/-- `RemoteWebsocket.open`: the handshake from a given socket state,
cached-token state and configured port, returning the event trace and
the result `open`'s caller observes. -/
def openModel (connectOk : Nat → Bool) (outcome : Nat → AuthOutcome)
    (sockOpen hasToken : Bool) (cfgPort : Nat) :
    List OpenEv × Except OpenErr Unit :=
  let pre := if sockOpen then [OpenEv.closedSock] else []
  let p := effectivePort hasToken cfgPort
  if connectOk p = false then (pre, Except.error OpenErr.connectFail)
  else
    let ev := pre ++ [OpenEv.connected p, OpenEv.authWait 30]
    match outcome p with
    | AuthOutcome.authorized => (ev, Except.ok ())
    | AuthOutcome.timedOut =>
      (ev ++ [OpenEv.closedSock], Except.error OpenErr.authTimeout)
    | AuthOutcome.unauthorized =>
      if p = 8001 then (ev ++ openRetry8002 connectOk, Except.ok ())
      else
        (ev ++ [OpenEv.closedSock, OpenEv.swallowed OpenErr.authDenied],
         Except.ok ())

/-- C3 fails on the code: on the secure variant, an "unauthorized" event
makes `open` return SUCCESS to its caller — `unauthorized_callback` sets
`auth_event` before anything else, waking `open`'s 30-unit wait — while
the `RuntimeError('Authentication denied')` it then raises on the
receive thread is swallowed by `loop`'s bare `except:`; AuthDenied is
never surfaced to the caller of `open`.  On the unencrypted variant the
callback does close and reconnect on 8002 once, but that retried
handshake's receive thread dies instantly, so the retry can only time
out (also swallowed) and the caller again observes success. -/
theorem c3_auth_denied_swallowed :
    (openModel (fun _ => true) (fun _ => AuthOutcome.unauthorized)
        false false 8002).2 = Except.ok () ∧
    (openModel (fun _ => true) (fun _ => AuthOutcome.unauthorized)
        false false 8002).1 =
      [OpenEv.connected 8002, OpenEv.authWait 30, OpenEv.closedSock,
       OpenEv.swallowed OpenErr.authDenied] ∧
    (openModel (fun _ => true) (fun _ => AuthOutcome.unauthorized)
        false false 8001).2 = Except.ok () ∧
    (openModel (fun _ => true) (fun _ => AuthOutcome.unauthorized)
        false false 8001).1 =
      [OpenEv.connected 8001, OpenEv.authWait 30, OpenEv.closedSock,
       OpenEv.connected 8002, OpenEv.authWait 30,
       OpenEv.swallowed OpenErr.authTimeout] := by
  refine ⟨rfl, rfl, rfl, rfl⟩

/-- C9: a handshake attempt on which neither auth callback fires within
the 30-time-unit bound closes the socket and fails by raising the
auth-timeout error to the caller of `open`, on either transport
variant. -/
theorem c9_auth_wait_timeout (connectOk : Nat → Bool)
    (outcome : Nat → AuthOutcome) (sockOpen hasToken : Bool) (cfgPort : Nat)
    (hc : connectOk (effectivePort hasToken cfgPort) = true)
    (ht : outcome (effectivePort hasToken cfgPort) = AuthOutcome.timedOut) :
    (openModel connectOk outcome sockOpen hasToken cfgPort).2 =
      Except.error OpenErr.authTimeout ∧
    (openModel connectOk outcome sockOpen hasToken cfgPort).1 =
      (if sockOpen then [OpenEv.closedSock] else []) ++
        [OpenEv.connected (effectivePort hasToken cfgPort), OpenEv.authWait 30,
         OpenEv.closedSock] := by
  constructor <;> simp [openModel, hc, ht]

/-- Witness for C9 on the unencrypted variant with no live socket. -/
theorem c9_auth_wait_timeout_witness :
    (openModel (fun _ => true) (fun _ => AuthOutcome.timedOut)
        false false 8001).2 = Except.error OpenErr.authTimeout ∧
    (openModel (fun _ => true) (fun _ => AuthOutcome.timedOut)
        false false 8001).1 =
      (if false then [OpenEv.closedSock] else []) ++
        [OpenEv.connected (effectivePort false 8001), OpenEv.authWait 30,
         OpenEv.closedSock] :=
  c9_auth_wait_timeout (fun _ => true) (fun _ => AuthOutcome.timedOut)
    false false 8001 rfl rfl

/-! ### Credential store (token file, `open` lines 125-147 and
`auth_callback` lines 196-211)

The store is the raw text of `token.txt`.  Python's string primitives on
it are embedded character-structurally so that they evaluate inside the
kernel: `split('\n')`, `startswith`, the blankness test `not s.strip()`
and `'\n'.join`. -/

/-- Python `s.split('\n')`: split on every newline, keeping empty
pieces (so a text ending in a newline yields a final empty piece, and
the empty text yields one empty piece). -/
def pySplitNlAux : List Char → List Char → List String
  | [], acc => [String.mk acc.reverse]
  | c :: rest, acc =>
    if c = '\n' then String.mk acc.reverse :: pySplitNlAux rest []
    else pySplitNlAux rest (c :: acc)

def pySplitNl (s : String) : List String :=
  pySplitNlAux s.toList []

/-- Python `s.startswith(pre)`. -/
def pyStartsWith (s pre : String) : Bool :=
  pre.toList.isPrefixOf s.toList

/-- Python whitespace as stripped by `str.strip()`. -/
def pyIsSpace (c : Char) : Bool :=
  c = ' ' || c = '\t' || c = '\n' || c = '\r' || c = '\x0b' || c = '\x0c'

/-- Python `not line.strip()`: the line is empty or all whitespace. -/
def pyIsBlank (s : String) : Bool :=
  s.toList.all pyIsSpace

/-- Python `'\n'.join(xs)`. -/
def pyJoinNl : List String → String
  | [] => ""
  | [x] => x
  | x :: rest => x ++ "\n" ++ pyJoinNl rest

/-- Python `list.remove` on a list of strings: drop the first occurrence
(unchanged when absent, where Python would raise). -/
def pyRemoveStr (x : String) : List String → List String
  | [] => []
  | l :: rest => if l = x then rest else l :: pyRemoveStr x rest

/-- Result of the token-file phase of `open`, lines 125-147. -/
structure OpenScan where
  tokenLine : String
  allTokens : List String
  lineVar : String
  fileAfter : String
  deriving DecidableEq

/-- The loop `for line in tokens.split('\n')` of `open` lines 131-137:
skip blank lines, remember the (last) line starting with `host + ':'` as
`token`, collect every other non-blank line into `all_tokens`.  The third
component tracks the loop variable `line`, which retains its final value
after the loop and is captured (still in scope) by the nested
`auth_callback`. -/
def openScanLoop (host : String) :
    List String → String × List String × String → String × List String × String
  | [], st => st
  | l :: rest, (tok, acc, _) =>
    if pyIsBlank l then openScanLoop host rest (tok, acc, l)
    else if pyStartsWith l (host ++ ":") then openScanLoop host rest (l, acc, l)
    else openScanLoop host rest (tok, acc ++ [l], l)

/-- The token-file phase of `open` lines 125-147: scan the store, move
any entry for this host to the end of `all_tokens` (line 140), and
rewrite the file as `'\n'.join(all_tokens) + '\n'` when `all_tokens` is
non-empty (lines 145-147). -/
def openTokenPhase (host : String) (file : String) : OpenScan :=
  let st := openScanLoop host (pySplitNl file) ("", [], "")
  let all := if st.1 ≠ "" then st.2.1 ++ [st.1] else st.2.1
  let fileAfter := if all ≠ [] then pyJoinNl all ++ "\n" else file
  ⟨st.1, all, st.2.2, fileAfter⟩

/-- The removal loop of `auth_callback` lines 201-203:
`for lne in token_data[:]: if line.startswith(self.config['host'] + ':'):
token_data.remove(lne)`.  The condition tests the captured outer variable
`line` (constant throughout the loop), not the loop variable `lne`; the
snapshot is iterated and, whenever the condition holds, the first
occurrence of the current snapshot element is removed. -/
def authRemoveLoop (cond : Bool) : List String → List String → List String
  | [], cur => cur
  | l :: rest, cur =>
    authRemoveLoop cond rest (if cond then pyRemoveStr l cur else cur)

/-- The token-rotation branch of `auth_callback` lines 197-211, run when
the authorized event carries a fresh token: re-read the store, run the
removal loop (conditioned on the captured `line` variable), append
`host + ':' + token` and write `'\n'.join(token_data) + '\n'`. -/
def authTokenUpdate (host lineVar newTok : String) (file : String) : String :=
  let tokenData := pySplitNl file
  let cond := pyStartsWith lineVar (host ++ ":")
  let td := authRemoveLoop cond tokenData tokenData
  pyJoinNl (td ++ [host ++ ":" ++ newTok]) ++ "\n"

/-- Store contents after a successful authenticated handshake that yields
a new token: the token-file phase of `open` runs first (it also fixes the
value the `line` variable holds when `auth_callback` later fires), then
`auth_callback` rotates the new token in. -/
def storeAfterAuthSuccess (host newTok file : String) : String :=
  let sc := openTokenPhase host file
  authTokenUpdate host sc.lineVar newTok sc.fileAfter

/-- The store entries for a host: the lines starting with `host + ':'`. -/
def entriesFor (host : String) (file : String) : List String :=
  (pySplitNl file).filter (fun l => pyStartsWith l (host ++ ":"))

/-- C1 fails on the code (spec §9 flags this as a likely defect): on the
spec's own example store, a successful handshake for host `10.0.0.5`
yielding token `def` leaves TWO entries for that host — the stale
`10.0.0.5:abc` survives because the removal loop in `auth_callback`
tests the stale variable `line` (which holds the final, blank, line of
the earlier scan in `open`) instead of its own loop variable `lne`, so it
removes nothing — where the claim requires exactly one entry,
`10.0.0.5:def`.  Entries of other hosts are preserved. -/
theorem c1_token_rotation_uses_stale_variable :
    entriesFor "10.0.0.5"
        (storeAfterAuthSuccess "10.0.0.5" "def" "10.0.0.5:abc\n10.0.0.9:xyz\n") =
      ["10.0.0.5:abc", "10.0.0.5:def"] ∧
    entriesFor "10.0.0.9"
        (storeAfterAuthSuccess "10.0.0.5" "def" "10.0.0.5:abc\n10.0.0.9:xyz\n") =
      ["10.0.0.9:xyz"] ∧
    storeAfterAuthSuccess "10.0.0.5" "def" "10.0.0.5:abc\n10.0.0.9:xyz\n" =
      "10.0.0.9:xyz\n10.0.0.5:abc\n\n10.0.0.5:def\n" := by
  refine ⟨?_, ?_, ?_⟩ <;> rfl
